import Mathlib

/-!
Verification of the booking / payment core of the alx_travel_app repository.

The Django source (listings/enums.py, listings/models.py,
listings/serializers.py, listings/views.py, listings/tasks.py) is shallowly
embedded below: the relational store becomes an explicit `AppState`, every
HTTP handler becomes a pure function from a state (plus the gateway response
it would receive over the network) to a result carrying the HTTP status code,
the response body, the successor state and the number of outbound gateway
calls made.  Amounts use `Rat`, which models Python `Decimal` arithmetic
exactly for the operations the code performs (integer times decimal).
Dates are days since an arbitrary epoch, so `(end_date - start_date).days`
becomes integer subtraction.  Statuses are the literal strings Django
TextChoices store, because the code compares them as strings (including one
comparison against lowercase literals).
-/

namespace AlxTravel

/- Values of `BookingStatus` in listings/enums.py (the stored member value
of each Django TextChoices entry). -/
namespace BookingStatus

def PENDING : String := "PENDING"

def CONFIRMED : String := "CONFIRMED"

def CANCELED : String := "CANCELED"

def DECLINED : String := "DECLINED"

end BookingStatus

/- Values of `PaymentStatus` in listings/enums.py. -/
namespace PaymentStatus

def PENDING : String := "PENDING"

def COMPLETED : String := "COMPLETED"

def FAILED : String := "FAILED"

end PaymentStatus

/-- A row of the `Users` model (listings/models.py).  Only the fields the
booking / payment core reads are kept: the primary key and the staff flag
consulted by `BookingViewSet.get_queryset`. -/
structure Users where
  user_id : Nat
  is_staff : Bool
deriving Repr, DecidableEq

/-- A row of the `Listing` model (listings/models.py). -/
structure Listing where
  listing_id : Nat
  host : Nat
  price_per_night : Rat
  is_available : Bool
deriving Repr, DecidableEq

/-- A row of the `Booking` model (listings/models.py).  `total_price` is
nullable (`null=True`), `status` is the stored TextChoices string. -/
structure Booking where
  booking_id : Nat
  listing : Nat
  guest : Nat
  start_date : Int
  end_date : Int
  total_price : Option Rat
  status : String
deriving Repr, DecidableEq

/-- A row of the `Payment` model (listings/models.py).  `pk` is the implicit
auto primary key; `trnx_id` is nullable. -/
structure Payment where
  pk : Nat
  booking : Nat
  amount : Option Rat
  status : String
  trnx_id : Option String
deriving Repr, DecidableEq

/-- The relational store, plus the log of notification dispatches
(`send_booking_confirmation_email.delay(booking_id)` appends the booking id)
and the auto-increment counter for Payment primary keys. -/
structure AppState where
  listings : List Listing
  bookings : List Booking
  payments : List Payment
  notifications : List Nat
  nextPaymentPk : Nat
deriving Repr, DecidableEq

/-- Result of one HTTP handler invocation: response status code, the
distinguishing part of the response body, the successor store state, and how
many outbound HTTP calls to the payment gateway the handler performed. -/
structure OpResult where
  code : Nat
  body : String
  state : AppState
  gatewayCalls : Nat
deriving Repr, DecidableEq

/-- Lookup `Booking.objects.get(booking_id=...)` / FK traversal. -/
def findBooking (s : AppState) (bid : Nat) : Option Booking :=
  s.bookings.find? (fun b => b.booking_id == bid)

/-- Lookup of a `Listing` row by primary key (FK traversal). -/
def findListing (s : AppState) (lid : Nat) : Option Listing :=
  s.listings.find? (fun l => l.listing_id == lid)

/-- Traversal `booking.listing.host`. -/
def listingHostOf (s : AppState) (lid : Nat) : Option Nat :=
  (findListing s lid).map Listing.host

/-- Lookup `Payment.objects.get(trnx_id=tx_ref)`; `trnx_id` carries a DB unique
constraint, so the first match is the only match in reachable states. -/
def findPaymentByTx (s : AppState) (tx : String) : Option Payment :=
  s.payments.find? (fun p => p.trnx_id == some tx)

/-- Update `booking.save()`: row update keyed by primary key. -/
def saveBooking (s : AppState) (b : Booking) : AppState :=
  { s with bookings := s.bookings.map (fun x => if x.booking_id == b.booking_id then b else x) }

/-- Update `payment.save()`: row update keyed by primary key. -/
def savePayment (s : AppState) (p : Payment) : AppState :=
  { s with payments := s.payments.map (fun x => if x.pk == p.pk then p else x) }

/-- Embeds `BookingViewSet.get_object()`: the queryset is all bookings for staff,
otherwise bookings where the requester is the guest or the host of the
listing (views.py `get_queryset`); a booking outside the queryset is a 404. -/
def visibleBooking (s : AppState) (user : Users) (bid : Nat) : Option Booking :=
  match findBooking s bid with
  | none => none
  | some b =>
    if user.is_staff then some b
    else if b.guest == user.user_id || listingHostOf s b.listing == some user.user_id then
      some b
    else none

/-- The overlapping-bookings filter of `BookingSerializer.validate`
(serializers.py lines 245-250): listing equal, `start_date__lt=end_date`,
`end_date__gt=start_date`, and `status__in=["pending", "confirmed"]` --
the literals are lowercase exactly as in the source. -/
def overlapExists (s : AppState) (listing : Nat) (start_date end_date : Int) : Bool :=
  s.bookings.any (fun b =>
    b.listing == listing && b.start_date < end_date && b.end_date > start_date &&
      (b.status == "pending" || b.status == "confirmed"))

/-- Embeds `BookingSerializer.validate` (serializers.py lines 232-253). -/
def bookingValidate (s : AppState) (listing : Nat) (start_date end_date : Int) :
    Except String Unit :=
  if end_date ≤ start_date then
    Except.error "End date must be after start date."
  else if overlapExists s listing start_date end_date then
    Except.error "This listing is already booked for part or all of the selected dates."
  else
    Except.ok ()

/-- The pricing computation of `BookingSerializer.create` (serializers.py
lines 263-268): `duration_days = (end_date - start_date).days`, reject a
non-positive duration, otherwise `Decimal(duration_days) * price_per_night`
(exact decimal arithmetic, here exact rational arithmetic). -/
def computeTotal (price_per_night : Rat) (start_date end_date : Int) :
    Except String Rat :=
  let duration_days : Int := end_date - start_date
  if duration_days ≤ 0 then
    Except.error "Booking duration must be at least one day."
  else
    Except.ok ((duration_days : Rat) * price_per_night)

/-- Booking creation as driven by the viewsets: `BookingSerializer.validate`
followed by `BookingSerializer.create`, with the views passing
`status=BookingStatus.PENDING` into `serializer.save` (views.py lines 88 and
123), so the created row is Pending. -/
def bookingCreate (s : AppState) (new_id : Nat) (listing : Listing) (guest : Nat)
    (start_date end_date : Int) : Except String AppState :=
  match bookingValidate s listing.listing_id start_date end_date with
  | Except.error e => Except.error e
  | Except.ok _ =>
    match computeTotal listing.price_per_night start_date end_date with
    | Except.error e => Except.error e
    | Except.ok total =>
      Except.ok { s with bookings := s.bookings ++
        [{ booking_id := new_id, listing := listing.listing_id, guest := guest,
           start_date := start_date, end_date := end_date,
           total_price := some total, status := BookingStatus.PENDING }] }

/-- Embeds `BookingViewSet.decline` (views.py lines 147-167): host-only, allowed
when the current status is PENDING or CONFIRMED, sets DECLINED. -/
def decline (s : AppState) (user : Users) (bid : Nat) : OpResult :=
  match visibleBooking s user bid with
  | none => ⟨404, "Not found.", s, 0⟩
  | some booking =>
    if listingHostOf s booking.listing ≠ some user.user_id then
      ⟨403, "You are not authorized to decline this booking.", s, 0⟩
    else if booking.status ≠ BookingStatus.PENDING ∧ booking.status ≠ BookingStatus.CONFIRMED then
      ⟨400, "Booking is already cancelled or completed.", s, 0⟩
    else
      ⟨200, "declined", saveBooking s { booking with status := BookingStatus.DECLINED }, 0⟩

/-- Embeds `BookingViewSet.cancel` (views.py lines 169-189): guest-or-host, blocked
when the current status is CANCELED, CONFIRMED or DECLINED, sets CANCELED. -/
def cancel (s : AppState) (user : Users) (bid : Nat) : OpResult :=
  match visibleBooking s user bid with
  | none => ⟨404, "Not found.", s, 0⟩
  | some booking =>
    if booking.guest ≠ user.user_id ∧ listingHostOf s booking.listing ≠ some user.user_id then
      ⟨403, "You are not authorized to cancel this booking.", s, 0⟩
    else if booking.status = BookingStatus.CANCELED ∨ booking.status = BookingStatus.CONFIRMED
        ∨ booking.status = BookingStatus.DECLINED then
      ⟨400, "Booking cannot be cancelled from its current status.", s, 0⟩
    else
      ⟨200, "canceled", saveBooking s { booking with status := BookingStatus.CANCELED }, 0⟩

/-- The gateway reply to the `initialize` call as the handler observes it:
either a transport-level failure (`requests.exceptions.RequestException`,
which `raise_for_status` also turns non-2xx replies into) or a parsed JSON
body carrying a `status` flag and a checkout URL. -/
inductive InitResponse where
  | transportError
  | apiResponse (flag : String) (checkout_url : String)
deriving Repr, DecidableEq

/-- The gateway reply to the verification call: transport failure or a
parsed body whose nested `data.status` field is `dataStatus`. -/
inductive VerifyResponse where
  | transportError
  | apiResponse (dataStatus : String)
deriving Repr, DecidableEq

/-- Transaction reference generation of `PaymentViewSet.initiate`
(views.py line 242): a stable text, the booking id, and a random suffix
(passed in here explicitly). -/
def tx_ref_for (bid : Nat) (uuidSuffix : String) : String :=
  "booking-payment-" ++ toString bid ++ "-" ++ uuidSuffix

/-- The PENDING Payment row created by `PaymentViewSet.initiate`
(views.py lines 245-250): it carries the booking total_price and the
generated transaction reference. -/
def initPayment (s : AppState) (bid : Nat) (booking : Booking) (uuidSuffix : String) : Payment :=
  { pk := s.nextPaymentPk, booking := bid, amount := booking.total_price,
    status := PaymentStatus.PENDING, trnx_id := some (tx_ref_for bid uuidSuffix) }

/-- Embeds `PaymentViewSet.initiate` (views.py lines 202-304).  Steps in source
order: missing booking_id is 400; unknown booking is 404; a booking whose
status is not PENDING is 400 before any Payment row exists; otherwise a
PENDING Payment row is created, the gateway is called, and on success the
checkout URL is returned (201) with the payment left PENDING; on a
gateway-reported failure the payment is marked FAILED and the generic
handler answers 500; on a transport error the payment is marked FAILED and
the handler answers 503. -/
def initiate (s : AppState) (booking_id : Option Nat) (uuidSuffix : String)
    (gw : InitResponse) : OpResult :=
  match booking_id with
  | none => ⟨400, "booking_id is required.", s, 0⟩
  | some bid =>
    match findBooking s bid with
    | none => ⟨404, "Booking not found.", s, 0⟩
    | some booking =>
      if booking.status ≠ BookingStatus.PENDING then
        ⟨400, "This booking is not pending and cannot be paid for.", s, 0⟩
      else
        let payment : Payment := initPayment s bid booking uuidSuffix
        let s1 : AppState :=
          { s with payments := s.payments ++ [payment],
                   nextPaymentPk := s.nextPaymentPk + 1 }
        match gw with
        | InitResponse.transportError =>
          ⟨503, "Failed to connect to payment gateway",
            savePayment s1 { payment with status := PaymentStatus.FAILED }, 1⟩
        | InitResponse.apiResponse flag checkout_url =>
          if flag = "success" then
            ⟨201, checkout_url, s1, 1⟩
          else
            ⟨500, "Payment initiation failed",
              savePayment s1 { payment with status := PaymentStatus.FAILED }, 1⟩

/-- Embeds `PaymentViewSet.verify` (views.py lines 307-380).  Steps in source
order: empty reference is 400 before any gateway call; the gateway
verification call comes next and a transport error is answered 503 with
nothing loaded or written; then the Payment is loaded by reference (404 if
absent); if the gateway-reported status is success the payment is set
COMPLETED, the booking is set CONFIRMED, a confirmation email task is
dispatched and the handler answers 200; otherwise the payment is set FAILED
and the handler answers 400. -/
def verify (s : AppState) (tx : String) (gw : VerifyResponse) : OpResult :=
  if tx = "" then
    ⟨400, "Transaction reference (tx_ref) is required.", s, 0⟩
  else
    match gw with
    | VerifyResponse.transportError =>
      ⟨503, "Failed to verify with Chapa", s, 1⟩
    | VerifyResponse.apiResponse dataStatus =>
      match findPaymentByTx s tx with
      | none => ⟨404, "Payment record not found for this transaction reference.", s, 1⟩
      | some payment =>
        if dataStatus = "success" then
          let s1 := savePayment s { payment with status := PaymentStatus.COMPLETED }
          let s2 :=
            match findBooking s1 payment.booking with
            | some booking => saveBooking s1 { booking with status := BookingStatus.CONFIRMED }
            | none => s1
          let s3 := { s2 with notifications := s2.notifications ++ [payment.booking] }
          ⟨200, "Payment successfully verified and records updated.", s3, 1⟩
        else
          ⟨400, "Payment verification failed",
            savePayment s { payment with status := PaymentStatus.FAILED }, 1⟩

/-- Outcome of `PaymentSerializer.create`: the created row, the successor
state, and the number of gateway calls the method performs. -/
structure CreateResult where
  payment : Payment
  state : AppState
  gatewayCalls : Nat
deriving Repr, DecidableEq

/-- Embeds `PaymentSerializer.create` (serializers.py lines 182-202): creates the
Payment directly in COMPLETED status, then sets the booking CONFIRMED if it
is not already; the method body contains no gateway interaction. -/
def paymentSerializerCreate (s : AppState) (booking : Booking) (amount : Rat)
    (tid : Option String) : CreateResult :=
  let payment : Payment :=
    { pk := s.nextPaymentPk, booking := booking.booking_id, amount := some amount,
      status := PaymentStatus.COMPLETED, trnx_id := tid }
  let s1 : AppState :=
    { s with payments := s.payments ++ [payment],
             nextPaymentPk := s.nextPaymentPk + 1 }
  let s2 :=
    if booking.status ≠ BookingStatus.CONFIRMED then
      saveBooking s1 { booking with status := BookingStatus.CONFIRMED }
    else s1
  ⟨payment, s2, 0⟩

/-- Number of Payment rows of a booking that are in COMPLETED status. -/
def completedPaymentsFor (s : AppState) (bid : Nat) : Nat :=
  (s.payments.filter (fun p => p.booking == bid && p.status == PaymentStatus.COMPLETED)).length

/-- A listing owned by user 1 at 100 per night. -/
def L0 : Listing := { listing_id := 0, host := 1, price_per_night := 100, is_available := true }

/-- A PENDING booking of L0 by guest 2 for the range day 0 to day 3. -/
def B0 : Booking :=
  { booking_id := 10, listing := 0, guest := 2, start_date := 0, end_date := 3,
    total_price := some 300, status := BookingStatus.PENDING }

/-- A PENDING payment for B0 with transaction reference t1. -/
def P0 : Payment :=
  { pk := 0, booking := 10, amount := some 300, status := PaymentStatus.PENDING,
    trnx_id := some "t1" }

/-- Store holding L0, B0 and P0. -/
def s0 : AppState :=
  { listings := [L0], bookings := [B0], payments := [P0], notifications := [],
    nextPaymentPk := 1 }

/-- B0 in CONFIRMED status. -/
def B1 : Booking := { B0 with status := BookingStatus.CONFIRMED }

/-- Store holding L0 and the confirmed booking B1. -/
def s1 : AppState :=
  { listings := [L0], bookings := [B1], payments := [], notifications := [],
    nextPaymentPk := 0 }

/-- The host of L0, not staff. -/
def host1 : Users := { user_id := 1, is_staff := false }

/-- The guest of B0/B1, not staff. -/
def guest2 : Users := { user_id := 2, is_staff := false }

/-- Double-initiate / double-verify trace on s0: first initiate (gateway
accepts). -/
def traceInitOne : OpResult := initiate s0 (some 10) "aa" (InitResponse.apiResponse "success" "url1")

/-- Second initiate on the same still-PENDING booking (gateway accepts). -/
def traceInitTwo : OpResult :=
  initiate traceInitOne.state (some 10) "bb" (InitResponse.apiResponse "success" "url2")

/-- Verification of the first payment, gateway reports success. -/
def traceVerifyOne : OpResult :=
  verify traceInitTwo.state "booking-payment-10-aa" (VerifyResponse.apiResponse "success")

/-- Verification of the second payment, gateway reports success. -/
def traceVerifyTwo : OpResult :=
  verify traceVerifyOne.state "booking-payment-10-bb" (VerifyResponse.apiResponse "success")

end AlxTravel

namespace AlxTravel

/-- A row update keyed on the primary key leaves every other row in place
and replaces the row a search by that key finds. -/
theorem find_update_booking (bid : Nat) (b2 : Booking) (hid : b2.booking_id = bid) :
    ∀ (l : List Booking) (b : Booking),
      l.find? (fun x => x.booking_id == bid) = some b →
      (l.map (fun x => if x.booking_id == b2.booking_id then b2 else x)).find?
          (fun x => x.booking_id == bid) = some b2 := by
  intro l
  induction l with
  | nil => intro b h; simp [List.find?] at h
  | cons a t ih =>
    intro b h
    by_cases hpa : (a.booking_id == bid) = true
    · rw [List.map_cons]
      have ha2 : (a.booking_id == b2.booking_id) = true := by rw [hid]; exact hpa
      rw [if_pos ha2]
      exact List.find?_cons_of_pos _ (by rw [hid]; exact beq_self_eq_true bid)
    · have hfa : (a.booking_id == bid) = false := by simpa using hpa
      rw [List.find?_cons_of_neg _ (by simp [hfa])] at h
      rw [List.map_cons]
      have ha2 : (a.booking_id == b2.booking_id) = false := by rw [hid]; exact hfa
      rw [if_neg (by simp [ha2])]
      rw [List.find?_cons_of_neg _ (by simp [hfa])]
      exact ih b h

/-- Lemma: `findBooking` after `saveBooking` returns the updated row when the row
was present before. -/
theorem findBooking_saveBooking_of_found (s : AppState) (bid : Nat) (b b2 : Booking)
    (hfind : findBooking s bid = some b) (hid : b2.booking_id = bid) :
    findBooking (saveBooking s b2) bid = some b2 := by
  unfold findBooking at hfind
  unfold findBooking saveBooking
  exact find_update_booking bid b2 hid s.bookings b hfind

end AlxTravel

namespace AlxTravel

/-- Claim C5: for every booking whose status is not Pending, the payment
initiate operation fails with the not-payable 400 error and leaves the
store unchanged, so no Payment record is created; the Payment record is
only created after the Pending guard passes. -/
theorem initiate_nonpending_fails_no_payment (s : AppState) (bid : Nat) (b : Booking)
    (sfx : String) (gw : InitResponse)
    (hb : findBooking s bid = some b) (hst : b.status ≠ BookingStatus.PENDING) :
    initiate s (some bid) sfx gw =
      ⟨400, "This booking is not pending and cannot be paid for.", s, 0⟩ := by
  simp [initiate, hb, hst]

/-- Witness for C5 at the concrete confirmed booking B1. -/
theorem initiate_nonpending_fails_no_payment_witness :
    findBooking s1 10 = some B1 ∧ B1.status ≠ BookingStatus.PENDING ∧
    initiate s1 (some 10) "x" InitResponse.transportError =
      ⟨400, "This booking is not pending and cannot be paid for.", s1, 0⟩ :=
  ⟨rfl, by decide,
    initiate_nonpending_fails_no_payment s1 10 B1 "x" InitResponse.transportError rfl (by decide)⟩

/-- Claim C9: a transport error on the gateway verification request makes
Verify answer 503 and mutates nothing: the whole store, in particular every
Payment and Booking row, is returned unchanged. -/
theorem verify_transport_error_no_mutation (s : AppState) (tx : String) (htx : tx ≠ "") :
    verify s tx VerifyResponse.transportError =
      ⟨503, "Failed to verify with Chapa", s, 1⟩ := by
  unfold verify
  rw [if_neg htx]

/-- Witness for C9 at the concrete store s0. -/
theorem verify_transport_error_no_mutation_witness :
    verify s0 "t1" VerifyResponse.transportError =
      ⟨503, "Failed to verify with Chapa", s0, 1⟩ :=
  verify_transport_error_no_mutation s0 "t1" (by decide)

end AlxTravel

namespace AlxTravel

/-- Claim C7: booking creation computes duration_days as integer date
subtraction, rejects non-positive durations with the invalid-duration
error, and otherwise stores total_price = price_per_night times
duration_days, exactly; in particular computeTotal 100 over three days is
300 and computeTotal over an empty range fails. -/
theorem booking_total_price_spec (s : AppState) (nid g : Nat) (L : Listing) (d1 d2 : Int) :
    (d2 - d1 ≤ 0 →
      computeTotal L.price_per_night d1 d2 =
        Except.error "Booking duration must be at least one day.") ∧
    (∀ s2, bookingCreate s nid L g d1 d2 = Except.ok s2 →
      ∃ b ∈ s2.bookings, b.booking_id = nid ∧
        b.total_price = some (((d2 - d1 : Int) : Rat) * L.price_per_night) ∧
        b.status = BookingStatus.PENDING) ∧
    computeTotal 100 0 3 = Except.ok 300 ∧
    computeTotal L.price_per_night d1 d1 =
      Except.error "Booking duration must be at least one day." := by
  refine ⟨?_, ?_, ?_, ?_⟩
  · intro hd
    simp [computeTotal, hd]
  · intro s2 h
    unfold bookingCreate at h
    cases hv : bookingValidate s L.listing_id d1 d2 with
    | error e => rw [hv] at h; cases h
    | ok u =>
      rw [hv] at h
      cases hc : computeTotal L.price_per_night d1 d2 with
      | error e => rw [hc] at h; cases h
      | ok total =>
        rw [hc] at h
        injection h with h2
        have htot : total = ((d2 - d1 : Int) : Rat) * L.price_per_night := by
          unfold computeTotal at hc
          by_cases hd : d2 - d1 ≤ 0
          · rw [if_pos hd] at hc; cases hc
          · rw [if_neg hd] at hc
            injection hc with hc2
            exact hc2.symm
        subst htot
        rw [← h2]
        exact ⟨_, List.mem_append_right _ (List.mem_singleton_self _), rfl, rfl, rfl⟩
  · unfold computeTotal
    norm_num
  · unfold computeTotal
    norm_num

/-- Witness for C7: the error case at an empty range and the concrete value
requested by the spec. -/
theorem booking_total_price_spec_witness :
    computeTotal L0.price_per_night 5 5 =
      Except.error "Booking duration must be at least one day." ∧
    computeTotal 100 0 3 = Except.ok 300 :=
  ⟨(booking_total_price_spec s0 1 2 L0 5 5).1 (by norm_num),
   (booking_total_price_spec s0 1 2 L0 0 3).2.2.1⟩

end AlxTravel

namespace AlxTravel

/-- Claim C1, behavior of the code at the failing input: with payment P0
(reference t1) pending for the pending booking B0, two Verify calls that
both receive a gateway success report do confirm the booking and return the
same 200 outcome twice, but a confirmation notification is dispatched on
each call, so two dispatches occur instead of exactly one, and the
COMPLETED/CONFIRMED writes are re-applied by the second call rather than
being skipped. -/
theorem verify_double_success_dispatches_two_notifications :
    (verify s0 "t1" (VerifyResponse.apiResponse "success")).code = 200 ∧
    (verify (verify s0 "t1" (VerifyResponse.apiResponse "success")).state "t1"
        (VerifyResponse.apiResponse "success")).code = 200 ∧
    (verify (verify s0 "t1" (VerifyResponse.apiResponse "success")).state "t1"
        (VerifyResponse.apiResponse "success")).body =
      (verify s0 "t1" (VerifyResponse.apiResponse "success")).body ∧
    (verify (verify s0 "t1" (VerifyResponse.apiResponse "success")).state "t1"
        (VerifyResponse.apiResponse "success")).state.bookings =
      [{ B0 with status := BookingStatus.CONFIRMED }] ∧
    (verify (verify s0 "t1" (VerifyResponse.apiResponse "success")).state "t1"
        (VerifyResponse.apiResponse "success")).state.payments =
      [{ P0 with status := PaymentStatus.COMPLETED }] ∧
    (verify (verify s0 "t1" (VerifyResponse.apiResponse "success")).state "t1"
        (VerifyResponse.apiResponse "success")).state.notifications = [10, 10] := by
  decide

/-- Claim C2, behavior of the code at the failing input: booking B0 on
listing 0 is PENDING over the half-open range day 0 to day 3, which
overlaps the requested range day 0 to day 10, yet validation accepts the
request, because the status filter compares the stored uppercase statuses
against the lowercase literals pending and confirmed. -/
theorem booking_validate_accepts_overlapping_pending :
    B0.listing = 0 ∧ B0.status = BookingStatus.PENDING ∧
    B0.start_date < 10 ∧ B0.end_date > 0 ∧
    findBooking s0 10 = some B0 ∧
    bookingValidate s0 0 0 10 = Except.ok () :=
  ⟨rfl, rfl, by decide, by decide, rfl, rfl⟩

/-- Claim C8, behavior of the code at the failing input: two initiate calls
on the still-pending booking B0 create two pending payments; verifying each
of their references with a gateway success report completes both, so two
Payment records of the same booking reach COMPLETED status. -/
theorem two_payments_reach_completed :
    traceVerifyOne.code = 200 ∧ traceVerifyTwo.code = 200 ∧
    completedPaymentsFor traceVerifyTwo.state 10 = 2 := by
  decide

/-- Claim C3, counterexample: booking B1 is CONFIRMED, yet a decline call
by the host of its listing does not fail: it answers 200 and mutates the
booking to DECLINED. -/
theorem decline_confirmed_succeeds_cex :
    B1.status = BookingStatus.CONFIRMED ∧ L0.host = host1.user_id ∧
    (decline s1 host1 10).code = 200 ∧
    findBooking (decline s1 host1 10).state 10 =
      some { B1 with status := BookingStatus.DECLINED } := by
  decide

/-- Claim C4, counterexample: booking B1 is CONFIRMED, a status outside
the set excluded by the claim, yet a cancel call by its guest does not set
CANCELED: it answers 400 and leaves the store unchanged. -/
theorem cancel_confirmed_rejected_cex :
    B1.status = BookingStatus.CONFIRMED ∧ B1.guest = guest2.user_id ∧
    cancel s1 guest2 10 =
      ⟨400, "Booking cannot be cancelled from its current status.", s1, 0⟩ := by
  decide

end AlxTravel

namespace AlxTravel

/-- Claim C3 (amended): decline by the host of the listing succeeds and sets
DECLINED from PENDING and from CONFIRMED alike; it fails 400 without
mutation only when the status is outside both; a non-host actor who can see
the booking (staff, or the guest) gets 403 without mutation, and any other
actor gets 404 without mutation. -/
theorem decline_transition_behavior (s : AppState) (u : Users) (bid : Nat)
    (b : Booking) (L : Listing)
    (hb : findBooking s bid = some b) (hbl : findListing s b.listing = some L) :
    (L.host = u.user_id ∧ (b.status = BookingStatus.PENDING ∨ b.status = BookingStatus.CONFIRMED) →
      decline s u bid =
        ⟨200, "declined", saveBooking s { b with status := BookingStatus.DECLINED }, 0⟩) ∧
    (L.host = u.user_id ∧ b.status ≠ BookingStatus.PENDING ∧ b.status ≠ BookingStatus.CONFIRMED →
      decline s u bid = ⟨400, "Booking is already cancelled or completed.", s, 0⟩) ∧
    (L.host ≠ u.user_id ∧ (u.is_staff = true ∨ b.guest = u.user_id) →
      decline s u bid = ⟨403, "You are not authorized to decline this booking.", s, 0⟩) ∧
    (L.host ≠ u.user_id ∧ u.is_staff = false ∧ b.guest ≠ u.user_id →
      decline s u bid = ⟨404, "Not found.", s, 0⟩) := by
  refine ⟨?_, ?_, ?_, ?_⟩
  · rintro ⟨hhost, hstat⟩
    rcases hstat with h | h <;>
      simp [decline, visibleBooking, listingHostOf, hb, hbl, hhost, h]
  · rintro ⟨hhost, h1, h2⟩
    simp [decline, visibleBooking, listingHostOf, hb, hbl, hhost, h1, h2]
  · rintro ⟨hhost, hvis⟩
    rcases hvis with h | h <;>
      simp [decline, visibleBooking, listingHostOf, hb, hbl, hhost, h]
  · rintro ⟨hhost, hstaff, hguest⟩
    simp [decline, visibleBooking, listingHostOf, hb, hbl, hhost, hstaff, hguest]

/-- Witness for C3 (amended), at the confirmed booking B1 and its host: the
decline succeeds and stores DECLINED. -/
theorem decline_transition_behavior_witness :
    decline s1 host1 10 =
      ⟨200, "declined", saveBooking s1 { B1 with status := BookingStatus.DECLINED }, 0⟩ :=
  (decline_transition_behavior s1 host1 10 B1 L0 rfl rfl).1 ⟨rfl, Or.inr rfl⟩

end AlxTravel

namespace AlxTravel

/-- Claim C4 (amended): cancel by the guest of the booking or the host of
its listing succeeds and sets CANCELED only when the current status is in
none of CANCELED, CONFIRMED and DECLINED (so in the enumerated state space
only from PENDING); from CANCELED, CONFIRMED or DECLINED it fails 400
without mutation; an actor who is neither guest nor host gets 403 without
mutation when staff and 404 without mutation otherwise. -/
theorem cancel_transition_behavior (s : AppState) (u : Users) (bid : Nat)
    (b : Booking) (L : Listing)
    (hb : findBooking s bid = some b) (hbl : findListing s b.listing = some L) :
    ((b.guest = u.user_id ∨ L.host = u.user_id) ∧
        b.status ≠ BookingStatus.CANCELED ∧ b.status ≠ BookingStatus.CONFIRMED ∧
        b.status ≠ BookingStatus.DECLINED →
      cancel s u bid =
        ⟨200, "canceled", saveBooking s { b with status := BookingStatus.CANCELED }, 0⟩) ∧
    ((b.guest = u.user_id ∨ L.host = u.user_id) ∧
        (b.status = BookingStatus.CANCELED ∨ b.status = BookingStatus.CONFIRMED ∨
         b.status = BookingStatus.DECLINED) →
      cancel s u bid = ⟨400, "Booking cannot be cancelled from its current status.", s, 0⟩) ∧
    (b.guest ≠ u.user_id ∧ L.host ≠ u.user_id ∧ u.is_staff = true →
      cancel s u bid = ⟨403, "You are not authorized to cancel this booking.", s, 0⟩) ∧
    (b.guest ≠ u.user_id ∧ L.host ≠ u.user_id ∧ u.is_staff = false →
      cancel s u bid = ⟨404, "Not found.", s, 0⟩) := by
  refine ⟨?_, ?_, ?_, ?_⟩
  · rintro ⟨hactor, h1, h2, h3⟩
    rcases hactor with h | h <;>
      simp [cancel, visibleBooking, listingHostOf, hb, hbl, h, h1, h2, h3]
  · rintro ⟨hactor, hstat⟩
    rcases hactor with h | h <;> rcases hstat with h4 | h4 | h4 <;>
      simp [cancel, visibleBooking, listingHostOf, hb, hbl, h, h4]
  · rintro ⟨hguest, hhost, hstaff⟩
    simp [cancel, visibleBooking, listingHostOf, hb, hbl, hguest, hhost, hstaff]
  · rintro ⟨hguest, hhost, hstaff⟩
    simp [cancel, visibleBooking, listingHostOf, hb, hbl, hguest, hhost, hstaff]

/-- Witness for C4 (amended), at the pending booking B0 and its guest: the
cancel succeeds and stores CANCELED. -/
theorem cancel_transition_behavior_witness :
    cancel s0 guest2 10 =
      ⟨200, "canceled", saveBooking s0 { B0 with status := BookingStatus.CANCELED }, 0⟩ :=
  (cancel_transition_behavior s0 guest2 10 B0 L0 rfl rfl).1
    ⟨Or.inl rfl, by decide, by decide, by decide⟩

end AlxTravel

namespace AlxTravel

/-- Claim C6: a gateway transport error during initiate on a pending
booking answers 503, leaves the created Payment record in FAILED status,
keeps the booking unchanged (still its pending row), and a subsequent
initiate on the same booking succeeds with 201, creating a new PENDING
Payment record with a fresh transaction reference. -/
theorem initiate_transport_error_then_retry (s : AppState) (bid : Nat) (b : Booking)
    (sfx1 sfx2 url : String)
    (hb : findBooking s bid = some b) (hst : b.status = BookingStatus.PENDING) :
    (initiate s (some bid) sfx1 InitResponse.transportError).code = 503 ∧
    (∃ p ∈ (initiate s (some bid) sfx1 InitResponse.transportError).state.payments,
      p.trnx_id = some (tx_ref_for bid sfx1) ∧ p.status = PaymentStatus.FAILED ∧
      p.booking = bid) ∧
    findBooking (initiate s (some bid) sfx1 InitResponse.transportError).state bid = some b ∧
    (initiate (initiate s (some bid) sfx1 InitResponse.transportError).state (some bid) sfx2
        (InitResponse.apiResponse "success" url)).code = 201 ∧
    (∃ q ∈ (initiate (initiate s (some bid) sfx1 InitResponse.transportError).state (some bid)
        sfx2 (InitResponse.apiResponse "success" url)).state.payments,
      q.trnx_id = some (tx_ref_for bid sfx2) ∧ q.status = PaymentStatus.PENDING ∧
      q.booking = bid) := by
  have hr1 : initiate s (some bid) sfx1 InitResponse.transportError =
      ⟨503, "Failed to connect to payment gateway",
        savePayment
          { s with payments := s.payments ++ [initPayment s bid b sfx1],
                   nextPaymentPk := s.nextPaymentPk + 1 }
          { initPayment s bid b sfx1 with status := PaymentStatus.FAILED }, 1⟩ := by
    simp [initiate, hb, hst]
  have hbook1 : findBooking (initiate s (some bid) sfx1 InitResponse.transportError).state bid
      = some b := by
    rw [hr1]
    exact hb
  have hr2 : initiate (initiate s (some bid) sfx1 InitResponse.transportError).state (some bid)
      sfx2 (InitResponse.apiResponse "success" url) =
      ⟨201, url,
        { (initiate s (some bid) sfx1 InitResponse.transportError).state with
            payments := (initiate s (some bid) sfx1 InitResponse.transportError).state.payments ++
              [initPayment (initiate s (some bid) sfx1 InitResponse.transportError).state bid b sfx2],
            nextPaymentPk :=
              (initiate s (some bid) sfx1 InitResponse.transportError).state.nextPaymentPk + 1 },
        1⟩ := by
    generalize hgen : (initiate s (some bid) sfx1 InitResponse.transportError).state = t at hbook1 ⊢
    simp [initiate, hbook1, hst]
  refine ⟨by rw [hr1], ?_, hbook1, by rw [hr2], ?_⟩
  · rw [hr1]
    refine ⟨{ initPayment s bid b sfx1 with status := PaymentStatus.FAILED }, ?_, rfl, rfl, rfl⟩
    unfold savePayment
    simp only [List.map_append]
    refine List.mem_append_right _ ?_
    simp [initPayment]
  · rw [hr2]
    exact ⟨initPayment (initiate s (some bid) sfx1 InitResponse.transportError).state bid b sfx2,
      List.mem_append_right _ (List.mem_singleton_self _), rfl, rfl, rfl⟩
end AlxTravel

namespace AlxTravel

/-- Witness for C6 at the pending booking B0: the failed first call answers
503 and the retry answers 201. -/
theorem initiate_transport_error_then_retry_witness :
    (initiate s0 (some 10) "aa" InitResponse.transportError).code = 503 ∧
    (initiate (initiate s0 (some 10) "aa" InitResponse.transportError).state (some 10) "bb"
        (InitResponse.apiResponse "success" "u")).code = 201 :=
  ⟨(initiate_transport_error_then_retry s0 10 B0 "aa" "bb" "u" rfl rfl).1,
   (initiate_transport_error_then_retry s0 10 B0 "aa" "bb" "u" rfl rfl).2.2.2.1⟩

/-- Supporting lemma about the create method body alone
(`PaymentSerializer.create`, serializers.py lines 182-202): invoked with a
validated booking it stores the new Payment directly in COMPLETED status,
sets the referenced booking CONFIRMED, and performs no call to the payment
gateway.  The endpoint-level theorem below shows the surrounding validate
step raises FieldError on every request, so this body is unreachable
through the POST create route. -/
theorem payment_create_completed_confirms_booking (s : AppState) (b : Booking)
    (amount : Rat) (tid : Option String) (hb : findBooking s b.booking_id = some b) :
    (paymentSerializerCreate s b amount tid).payment.status = PaymentStatus.COMPLETED ∧
    (paymentSerializerCreate s b amount tid).payment ∈
      (paymentSerializerCreate s b amount tid).state.payments ∧
    (findBooking (paymentSerializerCreate s b amount tid).state b.booking_id).map
      Booking.status = some BookingStatus.CONFIRMED ∧
    (paymentSerializerCreate s b amount tid).gatewayCalls = 0 := by
  by_cases hc : b.status = BookingStatus.CONFIRMED
  · refine ⟨rfl, ?_, ?_, rfl⟩
    · simp [paymentSerializerCreate, hc]
    · simp only [paymentSerializerCreate, hc, ne_eq, not_true_eq_false, if_false]
      show Option.map Booking.status (findBooking s b.booking_id) = some BookingStatus.CONFIRMED
      rw [hb]
      simp [hc]
  · refine ⟨rfl, ?_, ?_, rfl⟩
    · simp [paymentSerializerCreate, hc, saveBooking]
    · simp only [paymentSerializerCreate, hc, ne_eq, not_false_eq_true, if_true]
      show Option.map Booking.status
          (findBooking (saveBooking s { b with status := BookingStatus.CONFIRMED }) b.booking_id) =
        some BookingStatus.CONFIRMED
      rw [findBooking_saveBooking_of_found s b.booking_id b
        { b with status := BookingStatus.CONFIRMED } hb rfl]
      rfl

/-- Evaluation of the preceding create-body lemma at the concrete pending
booking B0. -/
theorem payment_create_completed_confirms_booking_witness :
    (paymentSerializerCreate s0 B0 300 (some "t9")).payment.status = PaymentStatus.COMPLETED ∧
    (paymentSerializerCreate s0 B0 300 (some "t9")).payment ∈
      (paymentSerializerCreate s0 B0 300 (some "t9")).state.payments ∧
    (findBooking (paymentSerializerCreate s0 B0 300 (some "t9")).state B0.booking_id).map
      Booking.status = some BookingStatus.CONFIRMED ∧
    (paymentSerializerCreate s0 B0 300 (some "t9")).gatewayCalls = 0 :=
  payment_create_completed_confirms_booking s0 B0 300 (some "t9") rfl

end AlxTravel
